import Mathlib

/-!
Verification of the fish actor of the fearsome-fishing repository.

The development shallowly embeds `src/scene/fish.ts` and the driver loop of
`src/main.ts`. Numbers are rationals (`ℚ`); the browser timer API
(`setTimeout` / `clearTimeout`) is modelled by an explicit list of pending
one-shot timers together with the module's stored handle slots; the event bus
and the `State` container live outside `src/` and are modelled from the spec
(sections 4.1 and 4.2). Randomness is passed in explicitly: every value the
source samples (`getRandomFloat` / `getRandomInt`) is a parameter of the
function that samples it.
-/

namespace FearsomeFishing

/-- A 3-component vector with rational components (three.js `Vector3`). -/
structure Vec3 where
  x : ℚ
  y : ℚ
  z : ℚ
deriving DecidableEq

/-- Componentwise sum of two vectors (`Vector3.add`). -/
def Vec3.add (a b : Vec3) : Vec3 := ⟨a.x + b.x, a.y + b.y, a.z + b.z⟩

/-- Scalar multiple of a vector (`Vector3.multiplyScalar`). -/
def Vec3.smul (c : ℚ) (a : Vec3) : Vec3 := ⟨c * a.x, c * a.y, c * a.z⟩

/-- Squared Euclidean distance between two points; `Vector3.distanceTo`
squares, sums and takes the square root of exactly these three terms. -/
def distSq (a b : Vec3) : ℚ :=
  (a.x - b.x) ^ 2 + (a.y - b.y) ^ 2 + (a.z - b.z) ^ 2

/-- Euclidean distance (`Vector3.distanceTo`), as a real number. -/
noncomputable def distanceTo (a b : Vec3) : ℝ :=
  Real.sqrt ((distSq a b : ℚ) : ℝ)

/-- Modelled from the spec: `src/util/vector.ts` is not under `src/`.
`getDirection(a, b)` supplies the direction vector pointing from `a`
toward `b`; only which endpoints are passed matters to the claims, so the
model keeps the unnormalized difference. -/
def getDirection (a b : Vec3) : Vec3 := ⟨b.x - a.x, b.y - a.y, b.z - a.z⟩

/-- Modelled from the spec: `src/util/random.ts` is not under `src/`.
`getRandomFloat(lo, hi)` draws uniformly from the interval; `r` is the
unit-interval sample (`0 ≤ r < 1`) that the platform RNG produces. -/
def getRandomFloat {α : Type} [Field α] (lo hi r : α) : α :=
  lo + r * (hi - lo)

/-- The event vocabulary of `src/events/event_manager.ts`. -/
inductive Event where
  | RESET
  | ON_FISH_FIGHT
  | ON_FISHERMAN_FIGHT
  | ON_FISH_CAUGHT
deriving DecidableEq

/-- The fish state tags (`enum FishStates`). -/
inductive FishStates where
  | IDLE
  | SWIMMING
  | BEING_REELED
  | FLOPPING
deriving DecidableEq

/-- Which per-frame callback the `State` container currently holds; `none`
models the `null` callback. Modelled from the spec: `src/core/state.ts` is
not under `src/`; section 4.2 specifies that `set(tag, onTick)` replaces the
tag and callback together and `update()` runs `onTick` when non-null. -/
inductive TickKind where
  | swimming
  | beingReeled
  | flopping
deriving DecidableEq

/-- The closed set of values the mutable `changeSwimDirectionCallback`
reference takes: its initializer `() => {}` and the two direction setters. -/
inductive DirCallback where
  | noop
  | away
  | toward
deriving DecidableEq

/-- Symbolic record of how the fish's rotation was last assigned. The
numeric angle (`atan2` plus offset) is irrelevant to the claims; the record
keeps the base direction vector, the half-angle in degrees and the random
sample that the source feeds to `setRotationFromAxisAngle`. -/
inductive Rot where
  | initial
  | lookAtV (target : Vec3)
  | eulerX (deg : ℚ)
  | yawFrom (base : Vec3) (halfAngleDeg : ℚ) (r : ℚ)
deriving DecidableEq

/-- Payload captured by a pending `setTimeout` closure: the sampled delay,
and for the flop timer also the sampled playback speed and flop count. -/
inductive TimerPayload where
  | dirChange (delay : ℚ)
  | flopFire (delay : ℚ) (speed : ℚ) (nFlops : ℕ)
deriving DecidableEq

/-- True on direction-change timer payloads. -/
def TimerPayload.isDir : TimerPayload → Bool
  | .dirChange _ => true
  | .flopFire _ _ _ => false

/-- True on flop timer payloads. -/
def TimerPayload.isFlop : TimerPayload → Bool
  | .dirChange _ => false
  | .flopFire _ _ _ => true

/-- The flop `AnimationAction`: whether it is playing and its repetition
count (collaborator handle, spec section 6). -/
structure FlopAction where
  playing : Bool
  repetitions : ℕ
deriving DecidableEq

/-- Ghost log of callback executions, used to count how often a timer's
callback body actually ran. -/
inductive LogEntry where
  | dirCbRun
  | flopCbRun
deriving DecidableEq

/-- The surroundings the fish module reads: the other actors' position
getters (their modules are not under `src/`) and the RNG samples consumed
by the event handlers. -/
structure Env where
  bobberPos : Vec3
  fishermanPos : Vec3
  rScale : ℚ
  rDir : ℚ
deriving DecidableEq

/-- Per-frame inputs: the fish's world direction (derived from its rotation
by the scene graph), the frame's elapsed time `delta`, and the RNG samples a
tick may consume when it arms a timer. -/
structure FrameInput where
  dir : Vec3
  delta : ℚ
  delay : ℚ
  flopDelay : ℚ
  flopSpeed : ℚ
  nFlops : ℕ
deriving DecidableEq

/-- The mutable module state of `src/scene/fish.ts`, together with the
platform timer queue (`pending`, `nextTimerId`) and the ghost `log`. -/
structure Sys where
  st : FishStates
  onTick : Option TickKind
  pos : Vec3
  scale : Vec3
  rot : Rot
  flopPlaybackSpeed : ℚ
  flopTimeoutId : Option ℕ
  swimDirectionChangeTimeoutId : Option ℕ
  changeSwimDirectionCallback : DirCallback
  flopAction : FlopAction
  animTime : ℚ
  pending : List (ℕ × TimerPayload)
  nextTimerId : ℕ
  log : List LogEntry
deriving DecidableEq

/-- Module state right after `setup()`: `State(IDLE, null)`, playback speed
`2.5`, both handles `null`, callback `() => {}`. The loaded model's initial
transform is opaque, so the position is a parameter. -/
def initSys (p0 : Vec3) : Sys where
  st := FishStates.IDLE
  onTick := none
  pos := p0
  scale := ⟨1, 1, 1⟩
  rot := Rot.initial
  flopPlaybackSpeed := 2.5
  flopTimeoutId := none
  swimDirectionChangeTimeoutId := none
  changeSwimDirectionCallback := DirCallback.noop
  flopAction := ⟨false, 0⟩
  animTime := 0
  pending := []
  nextTimerId := 0
  log := []

/-- `state.set(tag, cb)`: replaces tag and per-frame callback together. -/
def stateSet (tag : FishStates) (cb : Option TickKind) (s : Sys) : Sys :=
  { s with st := tag, onTick := cb }

/-- `getPosition()` returns a clone of `fish.position`; in this value-level
model the clone is the value itself (aliasing is treated separately by the
`Mem` model below). -/
def getPosition (s : Sys) : Vec3 := s.pos

/-- `setPosition(p)`: `fish.position.copy(p)`. -/
def setPosition (p : Vec3) (s : Sys) : Sys := { s with pos := p }

/-- `moveBelowBobber()`: `fish.position.set(b.x, fish.position.y, b.z)`. -/
def moveBelowBobber (env : Env) (s : Sys) : Sys :=
  { s with pos := ⟨env.bobberPos.x, s.pos.y, env.bobberPos.z⟩ }

/-- `setRandomScale(min, max)`: one uniform sample, applied to all three
scale components. -/
def setRandomScale (lo hi : ℚ) (env : Env) (s : Sys) : Sys :=
  { s with scale := ⟨getRandomFloat lo hi env.rScale,
                     getRandomFloat lo hi env.rScale,
                     getRandomFloat lo hi env.rScale⟩ }

/-- `setFlopPlaybackSpeed(s)`: non-positive requests are clamped to `0.1`. -/
def setFlopPlaybackSpeed (sp : ℚ) (s : Sys) : Sys :=
  { s with flopPlaybackSpeed := if sp ≤ 0 then 0.1 else sp }

/-- `flop(flopCount)`: reset the flop action and play it with the given
repetition count. -/
def flop (flopCount : ℕ) (s : Sys) : Sys :=
  { s with flopAction := ⟨true, flopCount⟩ }

/-- `cancelFlop()`: `clearTimeout` on the stored flop handle (a no-op when
the handle is `null`), null the handle, stop and reset the flop action. -/
def cancelFlop (s : Sys) : Sys :=
  { s with
      pending := match s.flopTimeoutId with
        | none => s.pending
        | some i => s.pending.filter (fun e => e.1 != i)
      flopTimeoutId := none
      flopAction := ⟨false, 0⟩ }

/-- `cancelChangeSwimDirections()`: `clearTimeout` on the stored
direction-change handle (no-op when `null`), then null the handle. -/
def cancelChangeSwimDirections (s : Sys) : Sys :=
  { s with
      pending := match s.swimDirectionChangeTimeoutId with
        | none => s.pending
        | some i => s.pending.filter (fun e => e.1 != i)
      swimDirectionChangeTimeoutId := none }

/-- `setSwimDirection_TowardFisherman()`: half angle `45 / 2` degrees, base
direction from the fish toward the fisherman. -/
def setSwimDirection_TowardFisherman (env : Env) (s : Sys) : Sys :=
  { s with rot := Rot.yawFrom (getDirection (getPosition s) env.fishermanPos)
                    (45 / 2) env.rDir }

/-- `setSwimDirection_AwayFisherman()`: half angle `180 / 2` degrees, base
direction from the fisherman toward the fish. -/
def setSwimDirection_AwayFisherman (env : Env) (s : Sys) : Sys :=
  { s with rot := Rot.yawFrom (getDirection env.fishermanPos (getPosition s))
                    (180 / 2) env.rDir }

/-- `changeSwimDirections()`: early-return when a direction-change timer is
already stored, otherwise arm a one-shot timer capturing the sampled delay
and store its handle. -/
def changeSwimDirections (delay : ℚ) (s : Sys) : Sys :=
  if s.swimDirectionChangeTimeoutId ≠ none then s
  else
    { s with
        pending := s.pending ++ [(s.nextTimerId, TimerPayload.dirChange delay)]
        swimDirectionChangeTimeoutId := some s.nextTimerId
        nextTimerId := s.nextTimerId + 1 }

/-- `flopRandomly()`: early-return when a flop timer is already stored,
otherwise arm a one-shot timer capturing the sampled delay, playback speed
and flop count, and store its handle. -/
def flopRandomly (delay speed : ℚ) (nFlops : ℕ) (s : Sys) : Sys :=
  if s.flopTimeoutId ≠ none then s
  else
    { s with
        pending := s.pending ++ [(s.nextTimerId, TimerPayload.flopFire delay speed nFlops)]
        flopTimeoutId := some s.nextTimerId
        nextTimerId := s.nextTimerId + 1 }

/-- Run the current `changeSwimDirectionCallback` reference. -/
def runDirCallback (env : Env) (s : Sys) : Sys :=
  match s.changeSwimDirectionCallback with
  | DirCallback.noop => s
  | DirCallback.away => setSwimDirection_AwayFisherman env s
  | DirCallback.toward => setSwimDirection_TowardFisherman env s

/-- The platform fires the pending timer with identifier `id`: the timer is
removed from the queue and its closure body runs once. The direction-change
closure runs the stored callback and then nulls its handle slot; the flop
closure sets the playback speed and starts the flop animation, and does not
touch its handle slot. Each run appends one ghost log entry. -/
def fireTimer (env : Env) (id : ℕ) (s : Sys) : Sys :=
  match s.pending.find? (fun e => e.1 == id) with
  | none => s
  | some (_, p) =>
    let s0 := { s with pending := s.pending.filter (fun e => e.1 != id) }
    match p with
    | TimerPayload.dirChange _ =>
        let s1 := runDirCallback env s0
        { s1 with swimDirectionChangeTimeoutId := none
                  log := LogEntry.dirCbRun :: s1.log }
    | TimerPayload.flopFire _ speed n =>
        let s1 := flop n (setFlopPlaybackSpeed speed s0)
        { s1 with log := LogEntry.flopCbRun :: s1.log }

/-- The `finished` listener installed on the animation mixer: when the flop
animation completes, the flop handle slot is set back to `null`. -/
def onAnimFinished (s : Sys) : Sys := { s with flopTimeoutId := none }

/-- The `ON_FISH_FIGHT` receiver. -/
def onFishFight (env : Env) (s : Sys) : Sys :=
  let s1 := cancelChangeSwimDirections s
  let s2 := moveBelowBobber env s1
  let s3 := setSwimDirection_AwayFisherman env s2
  let s4 := { s3 with changeSwimDirectionCallback := DirCallback.away }
  stateSet FishStates.SWIMMING (some TickKind.swimming) s4

/-- The `ON_FISHERMAN_FIGHT` receiver. -/
def onFishermanFight (env : Env) (s : Sys) : Sys :=
  let s1 := cancelChangeSwimDirections s
  let s2 := setSwimDirection_TowardFisherman env s1
  let s3 := { s2 with changeSwimDirectionCallback := DirCallback.toward }
  stateSet FishStates.BEING_REELED (some TickKind.beingReeled) s3

/-- The `ON_FISH_CAUGHT` receiver: `setRotationFromEuler` with a `-90`
degree pitch lays the fish flat. -/
def onFishCaught (s : Sys) : Sys :=
  let s1 := cancelChangeSwimDirections s
  let s2 := { s1 with rot := Rot.eulerX (-90) }
  stateSet FishStates.FLOPPING (some TickKind.flopping) s2

/-- The `RESET` receiver: cancel the flop timer, pick a fresh random scale
in `[2, 5)`, reposition to `(0, 2, 50)`, look at the fisherman, and enter
`IDLE` with a `null` per-frame callback. -/
def onReset (env : Env) (s : Sys) : Sys :=
  let s1 := cancelFlop s
  let s2 := setRandomScale 2 5 env s1
  let s3 := setPosition ⟨0, 2, 50⟩ s2
  let s4 := { s3 with rot := Rot.lookAtV env.fishermanPos }
  stateSet FishStates.IDLE none s4

/-- Modelled from the spec: `src/events/event_manager.ts` is not under
`src/`. Section 4.1 specifies that `transmit(e)` synchronously invokes every
receiver registered for `e`; the fish's receivers are the ones registered in
`setupReceivers`. -/
def dispatch (env : Env) (e : Event) (s : Sys) : Sys :=
  match e with
  | Event.ON_FISH_FIGHT => onFishFight env s
  | Event.ON_FISHERMAN_FIGHT => onFishermanFight env s
  | Event.ON_FISH_CAUGHT => onFishCaught s
  | Event.RESET => onReset env s

/-- `transmit(e)`: the published event together with the synchronous effect
of its receivers. -/
def transmit (env : Env) (e : Event) (s : Sys) : Sys × List Event :=
  (dispatch env e s, [e])

/-- `checkDistance()`: publish `ON_FISH_CAUGHT` when the distance to the
fisherman is below the catch distance `30`. The source compares
`distanceTo(...) < 30`; the model uses the equivalent decidable test
`distSq < 900` (theorem `distanceTo_lt_30_iff`). -/
def checkDistance (env : Env) (s : Sys) : Sys × List Event :=
  if distSq (getPosition s) env.fishermanPos < 900 then
    transmit env Event.ON_FISH_CAUGHT s
  else (s, [])

/-- `swimForward()`: advance along the current world direction by
`swimSpeed * delta` with `swimSpeed = 30`. -/
def swimForward (f : FrameInput) (s : Sys) : Sys :=
  { s with pos := Vec3.add s.pos (Vec3.smul (30 * f.delta) f.dir) }

/-- `while_SWIMMING()`: lazily arm a direction-change timer, then move. -/
def while_SWIMMING (f : FrameInput) (s : Sys) : Sys :=
  let s1 := if s.swimDirectionChangeTimeoutId = none then changeSwimDirections f.delay s else s
  swimForward f s1

/-- `while_BEING_REELED()`: lazily arm a direction-change timer, move, then
run the catch-distance check. -/
def while_BEING_REELED (env : Env) (f : FrameInput) (s : Sys) : Sys × List Event :=
  let s1 := if s.swimDirectionChangeTimeoutId = none then changeSwimDirections f.delay s else s
  let s2 := swimForward f s1
  checkDistance env s2

/-- `while_FLOPPING()`: lazily arm a flop timer, then advance the mixer by
`delta * flopPlaybackSpeed`. -/
def while_FLOPPING (f : FrameInput) (s : Sys) : Sys :=
  let s1 := if s.flopTimeoutId = none then flopRandomly f.flopDelay f.flopSpeed f.nFlops s else s
  { s1 with animTime := s1.animTime + f.delta * s1.flopPlaybackSpeed }

/-- `update()`: `state.update()` runs the current per-frame callback when it
is non-null, otherwise does nothing. The second component collects the
events the tick publishes. -/
def update (env : Env) (f : FrameInput) (s : Sys) : Sys × List Event :=
  match s.onTick with
  | none => (s, [])
  | some TickKind.swimming => (while_SWIMMING f s, [])
  | some TickKind.beingReeled => while_BEING_REELED env f s
  | some TickKind.flopping => (while_FLOPPING f s, [])

/-- Number of pending direction-change timers in the platform queue. -/
def countDir (l : List (ℕ × TimerPayload)) : ℕ :=
  (l.filter (fun e => e.2.isDir)).length

/-- Number of pending flop timers in the platform queue. -/
def countFlop (l : List (ℕ × TimerPayload)) : ℕ :=
  (l.filter (fun e => e.2.isFlop)).length

/-- `degToRad` from three.js MathUtils: degrees times `π / 180`. -/
noncomputable def degToRad (d : ℝ) : ℝ := d * (Real.pi / 180)

/-- The angular offset sampled by `setSwimDirection_TowardFisherman`:
`getRandomFloat(-h, h)` with `h = degToRad(45 / 2)`. -/
noncomputable def towardAngleOffset (r : ℝ) : ℝ :=
  getRandomFloat (-(degToRad (45 / 2))) (degToRad (45 / 2)) r

/-- The angular offset sampled by `setSwimDirection_AwayFisherman`:
`getRandomFloat(-h, h)` with `h = degToRad(180 / 2)`. -/
noncomputable def awayAngleOffset (r : ℝ) : ℝ :=
  getRandomFloat (-(degToRad (180 / 2))) (degToRad (180 / 2)) r

/-- A store of `Vector3` objects addressed by references, to express
aliasing: `data` maps a reference to its current components, `next` is the
next fresh reference. -/
structure Mem where
  data : ℕ → Vec3
  next : ℕ

/-- Allocate a fresh `Vector3` holding `v` (`new Vector3()` / `clone()`). -/
def Mem.alloc (m : Mem) (v : Vec3) : ℕ × Mem :=
  (m.next, ⟨Function.update m.data m.next v, m.next + 1⟩)

/-- Read the components stored at reference `r`. -/
def Mem.read (m : Mem) (r : ℕ) : Vec3 := m.data r

/-- Overwrite the components stored at reference `r` (in-place mutation of
that `Vector3` object). -/
def Mem.write (m : Mem) (r : ℕ) (v : Vec3) : Mem :=
  ⟨Function.update m.data r v, m.next⟩

/-- `getPosition()` at the reference level: `fish.position.clone()`
allocates a fresh `Vector3` carrying the same components as the fish's
stored position object. -/
def getPositionRef (fishPosRef : ℕ) (m : Mem) : ℕ × Mem :=
  m.alloc (m.read fishPosRef)

/-- The statements executed by one iteration of `run()` in `src/main.ts`,
in source order. -/
inductive UpdateStep where
  | timeDelta
  | stats
  | orbitControls
  | water
  | boat
  | fisherman
  | fishingLine
  | bobber
  | fish
  | reticle
  | ui
  | debugOrbs
  | render
deriving DecidableEq

/-- The call sequence of one tick of `run()`. -/
def runTick : List UpdateStep :=
  [UpdateStep.timeDelta, UpdateStep.stats, UpdateStep.orbitControls,
   UpdateStep.water, UpdateStep.boat, UpdateStep.fisherman,
   UpdateStep.fishingLine, UpdateStep.bobber, UpdateStep.fish,
   UpdateStep.reticle, UpdateStep.ui, UpdateStep.render]

/-- The seven per-actor updates named by the spec, in the claimed order. -/
def actorOrder : List UpdateStep :=
  [UpdateStep.water, UpdateStep.boat, UpdateStep.fisherman,
   UpdateStep.fishingLine, UpdateStep.bobber, UpdateStep.fish,
   UpdateStep.ui]

/-! Helper lemmas. -/

/-- The source's comparison `distanceTo(...) < 30` agrees with the model's
decidable test `distSq < 900`. -/
theorem distanceTo_lt_30_iff (a b : Vec3) :
    distanceTo a b < 30 ↔ distSq a b < 900 := by
  unfold distanceTo
  rw [Real.sqrt_lt' (by norm_num : (0 : ℝ) < 30)]
  constructor
  · intro h
    have : ((distSq a b : ℚ) : ℝ) < 900 := by norm_num at h; exact_mod_cast h
    exact_mod_cast this
  · intro h
    have : ((distSq a b : ℚ) : ℝ) < 900 := by exact_mod_cast h
    norm_num
    exact_mod_cast this

/-- Arming a direction-change timer does not move the fish. -/
theorem changeSwimDirections_pos (d : ℚ) (s : Sys) :
    (changeSwimDirections d s).pos = s.pos := by
  unfold changeSwimDirections
  split <;> rfl

/-- Firing a timer removes it from the platform queue for good: no entry
with its identifier remains. -/
theorem find?_filter_ne (l : List (ℕ × TimerPayload)) (i : ℕ) :
    (l.filter (fun e => e.1 != i)).find? (fun e => e.1 == i) = none := by
  rw [List.find?_eq_none]
  intro x hx
  have hne := List.of_mem_filter hx
  simp only [bne_iff_ne, ne_eq] at hne
  simp [hne]

/-- Running the stored direction callback only touches the rotation: the
ghost log is unchanged. -/
theorem runDirCallback_log (env : Env) (s : Sys) :
    (runDirCallback env s).log = s.log := by
  unfold runDirCallback
  cases s.changeSwimDirectionCallback <;> rfl

/-- Running the stored direction callback leaves the timer queue alone. -/
theorem runDirCallback_pending (env : Env) (s : Sys) :
    (runDirCallback env s).pending = s.pending := by
  unfold runDirCallback
  cases s.changeSwimDirectionCallback <;> rfl

/-! Concrete fixtures used by witnesses and counterexamples. -/

/-- A concrete environment: bobber at `(3, 0, 10)`, fisherman at the
origin, fixed RNG samples. -/
def env0 : Env := ⟨⟨3, 0, 10⟩, ⟨0, 0, 0⟩, 1 / 2, 1 / 2⟩

/-- A concrete frame: facing `+z`, `delta = 1/100`, fixed samples. -/
def frame0 : FrameInput := ⟨⟨0, 0, 1⟩, 1 / 100, 500, 800, 2, 3⟩

/-- A frame with zero direction and zero elapsed time: the fish stays put. -/
def frameStill : FrameInput := ⟨⟨0, 0, 0⟩, 0, 500, 800, 2, 3⟩

/-- Like `env0` but with the fisherman 100 units away. -/
def envFar : Env := ⟨⟨3, 0, 10⟩, ⟨100, 0, 0⟩, 1 / 2, 1 / 2⟩

/-- Fish being reeled toward a fisherman at the origin, fish at the origin. -/
def c2Near : Sys := dispatch env0 Event.ON_FISHERMAN_FIGHT (initSys ⟨0, 0, 0⟩)

/-- Fish being reeled, 100 units from the fisherman. -/
def c2Far : Sys := dispatch envFar Event.ON_FISHERMAN_FIGHT (initSys ⟨0, 0, 0⟩)

/-- A state with one armed flop timer (handle `0`). -/
def c3s : Sys := flopRandomly 500 2 3 (initSys ⟨0, 0, 0⟩)

/-- A state with one armed flop timer (handle `0`) and one armed
direction-change timer (handle `1`). -/
def c3w : Sys := changeSwimDirections 400 (flopRandomly 500 2 3 (initSys ⟨0, 0, 0⟩))

/-! Claim theorems. -/

/-- C1 counterexample: from `SWIMMING` with an armed direction-change timer,
publishing `RESET` puts the fish in `IDLE` but leaves the direction-change
timer handle equal to `some 0`, not `null` — the `RESET` receiver calls
`cancelFlop` but never `cancelChangeSwimDirections`. -/
theorem C1_counterexample :
    (dispatch env0 Event.RESET
        ((update env0 frame0 (dispatch env0 Event.ON_FISH_FIGHT (initSys ⟨0, 2, 50⟩))).1)).st
      = FishStates.IDLE ∧
    (dispatch env0 Event.RESET
        ((update env0 frame0 (dispatch env0 Event.ON_FISH_FIGHT (initSys ⟨0, 2, 50⟩))).1)).swimDirectionChangeTimeoutId
      = some 0 :=
  ⟨rfl, rfl⟩

/-- C1 (amended): publishing `RESET` from any state leaves the fish in
`IDLE` with the flop timer handle null; the direction-change timer handle is
not cleared by the `RESET` receiver and keeps whatever value it had. -/
theorem C1_reset_amended (env : Env) (s : Sys) :
    (dispatch env Event.RESET s).st = FishStates.IDLE ∧
    (dispatch env Event.RESET s).onTick = none ∧
    (dispatch env Event.RESET s).flopTimeoutId = none ∧
    (dispatch env Event.RESET s).swimDirectionChangeTimeoutId
      = s.swimDirectionChangeTimeoutId :=
  ⟨rfl, rfl, rfl, rfl⟩

/-- C2: while `BEING_REELED`, a per-frame update whose post-movement
Euclidean distance from fish to fisherman is strictly below `30` publishes
exactly `[ON_FISH_CAUGHT]`; with distance at least `30`, it publishes
nothing. -/
theorem C2_catch_trigger (env : Env) (f : FrameInput) (s : Sys)
    (hst : s.onTick = some TickKind.beingReeled) :
    (distanceTo (swimForward f s).pos env.fishermanPos < 30 →
      (update env f s).2 = [Event.ON_FISH_CAUGHT]) ∧
    (30 ≤ distanceTo (swimForward f s).pos env.fishermanPos →
      (update env f s).2 = []) := by
  have hup : update env f s = while_BEING_REELED env f s := by
    unfold update; rw [hst]
  have hpos : (swimForward f (if s.swimDirectionChangeTimeoutId = none
      then changeSwimDirections f.delay s else s)).pos = (swimForward f s).pos := by
    split
    · unfold swimForward; rw [changeSwimDirections_pos]
    · rfl
  constructor
  · intro h
    rw [distanceTo_lt_30_iff] at h
    have h9 : distSq (getPosition (swimForward f (if s.swimDirectionChangeTimeoutId = none
        then changeSwimDirections f.delay s else s))) env.fishermanPos < 900 := by
      unfold getPosition; rw [hpos]; exact h
    rw [hup]
    simp only [while_BEING_REELED, checkDistance, if_pos h9, transmit]
  · intro h
    have h9 : ¬ distSq (getPosition (swimForward f (if s.swimDirectionChangeTimeoutId = none
        then changeSwimDirections f.delay s else s))) env.fishermanPos < 900 := by
      unfold getPosition; rw [hpos, ← distanceTo_lt_30_iff]
      exact not_lt.2 h
    rw [hup]
    simp only [while_BEING_REELED, checkDistance, if_neg h9]

/-- C2 witness: with fish and fisherman both at the origin one tick
publishes exactly one `ON_FISH_CAUGHT`; 100 units apart it publishes none. -/
theorem C2_catch_trigger_witness :
    (update env0 frameStill c2Near).2 = [Event.ON_FISH_CAUGHT] ∧
    (update envFar frameStill c2Far).2 = [] := by
  constructor
  · refine (C2_catch_trigger env0 frameStill c2Near rfl).1 ?_
    rw [distanceTo_lt_30_iff]
    norm_num [c2Near, env0, frameStill, initSys, dispatch, onFishermanFight,
      cancelChangeSwimDirections, setSwimDirection_TowardFisherman, stateSet,
      swimForward, Vec3.add, Vec3.smul, distSq, getPosition, getDirection]
  · refine (C2_catch_trigger envFar frameStill c2Far rfl).2 ?_
    have h : ¬ distanceTo (swimForward frameStill c2Far).pos envFar.fishermanPos < 30 := by
      rw [distanceTo_lt_30_iff]
      norm_num [c2Far, envFar, frameStill, initSys, dispatch, onFishermanFight,
        cancelChangeSwimDirections, setSwimDirection_TowardFisherman, stateSet,
        swimForward, Vec3.add, Vec3.smul, distSq, getPosition, getDirection]
    exact not_lt.1 h

/-- C3 counterexample: with the flop timer armed (handle `0`), firing it
runs its closure exactly once (one ghost log entry) yet the flop handle slot
still holds `some 0` afterwards — the flop timer's closure does not null its
handle; only the animation `finished` listener does. -/
theorem C3_counterexample :
    c3s.flopTimeoutId = some 0 ∧
    (fireTimer env0 0 c3s).log = [LogEntry.flopCbRun] ∧
    (fireTimer env0 0 c3s).flopTimeoutId = some 0 :=
  ⟨rfl, rfl, rfl⟩

/-- C3 (amended): firing a pending timer runs its closure exactly once and
removes it from the platform queue. The direction-change closure then sets
its handle slot back to null; the flop closure leaves the flop handle slot
unchanged, and that slot is set to null by the mixer's `finished` listener
when the flop animation completes. -/
theorem C3_timer_fire_amended (env : Env) (s : Sys) (i j : ℕ) (d d2 sp : ℚ) (n : ℕ) :
    (s.pending.find? (fun e => e.1 == i) = some (i, TimerPayload.dirChange d) →
      (fireTimer env i s).swimDirectionChangeTimeoutId = none ∧
      (fireTimer env i s).log = LogEntry.dirCbRun :: s.log ∧
      (fireTimer env i s).pending.find? (fun e => e.1 == i) = none) ∧
    (s.pending.find? (fun e => e.1 == j) = some (j, TimerPayload.flopFire d2 sp n) →
      (fireTimer env j s).flopTimeoutId = s.flopTimeoutId ∧
      (fireTimer env j s).log = LogEntry.flopCbRun :: s.log ∧
      (fireTimer env j s).pending.find? (fun e => e.1 == j) = none ∧
      (onAnimFinished (fireTimer env j s)).flopTimeoutId = none) := by
  constructor
  · intro h
    unfold fireTimer
    rw [h]
    refine ⟨rfl, ?_, ?_⟩
    · show LogEntry.dirCbRun ::
          (runDirCallback env { s with pending := s.pending.filter (fun e => e.1 != i) }).log
        = LogEntry.dirCbRun :: s.log
      rw [runDirCallback_log]
    · show ((runDirCallback env { s with pending := s.pending.filter (fun e => e.1 != i) }).pending).find?
          (fun e => e.1 == i) = none
      rw [runDirCallback_pending]
      exact find?_filter_ne s.pending i
  · intro h
    unfold fireTimer
    rw [h]
    refine ⟨rfl, rfl, ?_, rfl⟩
    show (s.pending.filter (fun e => e.1 != j)).find? (fun e => e.1 == j) = none
    exact find?_filter_ne s.pending j

/-- C3 witness: on the concrete state with both timers armed, firing the
direction-change timer nulls its handle, and firing the flop timer keeps
the flop handle until the finished listener clears it. -/
theorem C3_timer_fire_amended_witness :
    ((fireTimer env0 1 c3w).swimDirectionChangeTimeoutId = none ∧
     (fireTimer env0 1 c3w).log = LogEntry.dirCbRun :: c3w.log ∧
     (fireTimer env0 1 c3w).pending.find? (fun e => e.1 == 1) = none) ∧
    ((fireTimer env0 0 c3w).flopTimeoutId = c3w.flopTimeoutId ∧
     (fireTimer env0 0 c3w).log = LogEntry.flopCbRun :: c3w.log ∧
     (fireTimer env0 0 c3w).pending.find? (fun e => e.1 == 0) = none ∧
     (onAnimFinished (fireTimer env0 0 c3w)).flopTimeoutId = none) := by
  have h := C3_timer_fire_amended env0 c3w 1 0 400 500 2 3
  exact ⟨h.1 rfl, h.2 rfl⟩

/-- C4: starting with no direction-change timer and no flop timer, calling
each schedule-if-absent path twice in succession (no cancel, no fire in
between) leaves exactly one pending platform timer of that kind. -/
theorem C4_single_flight (d1 d2 fd1 fd2 sp1 sp2 : ℚ) (n1 n2 : ℕ) (s : Sys)
    (hdirId : s.swimDirectionChangeTimeoutId = none)
    (hdirCount : countDir s.pending = 0)
    (hflopId : s.flopTimeoutId = none)
    (hflopCount : countFlop s.pending = 0) :
    countDir (changeSwimDirections d2 (changeSwimDirections d1 s)).pending = 1 ∧
    (changeSwimDirections d2 (changeSwimDirections d1 s)).swimDirectionChangeTimeoutId ≠ none ∧
    countFlop (flopRandomly fd2 sp2 n2 (flopRandomly fd1 sp1 n1 s)).pending = 1 ∧
    (flopRandomly fd2 sp2 n2 (flopRandomly fd1 sp1 n1 s)).flopTimeoutId ≠ none := by
  have e1 : changeSwimDirections d1 s =
      { s with pending := s.pending ++ [(s.nextTimerId, TimerPayload.dirChange d1)]
               swimDirectionChangeTimeoutId := some s.nextTimerId
               nextTimerId := s.nextTimerId + 1 } := by
    unfold changeSwimDirections
    rw [if_neg (by simp [hdirId] : ¬ s.swimDirectionChangeTimeoutId ≠ none)]
  have e2 : ∀ t : Sys, t.swimDirectionChangeTimeoutId = some s.nextTimerId →
      changeSwimDirections d2 t = t := by
    intro t ht
    unfold changeSwimDirections
    rw [if_pos (by simp [ht])]
  have e3 : flopRandomly fd1 sp1 n1 s =
      { s with pending := s.pending ++ [(s.nextTimerId, TimerPayload.flopFire fd1 sp1 n1)]
               flopTimeoutId := some s.nextTimerId
               nextTimerId := s.nextTimerId + 1 } := by
    unfold flopRandomly
    rw [if_neg (by simp [hflopId] : ¬ s.flopTimeoutId ≠ none)]
  have e4 : ∀ t : Sys, t.flopTimeoutId = some s.nextTimerId →
      flopRandomly fd2 sp2 n2 t = t := by
    intro t ht
    unfold flopRandomly
    rw [if_pos (by simp [ht])]
  rw [e1, e2 _ rfl, e3, e4 _ rfl]
  refine ⟨?_, by simp, ?_, by simp⟩
  · unfold countDir at hdirCount ⊢
    show ((s.pending ++ [(s.nextTimerId, TimerPayload.dirChange d1)]).filter
        (fun e => e.2.isDir)).length = 1
    rw [List.filter_append, List.length_append, hdirCount]
    rfl
  · unfold countFlop at hflopCount ⊢
    show ((s.pending ++ [(s.nextTimerId, TimerPayload.flopFire fd1 sp1 n1)]).filter
        (fun e => e.2.isFlop)).length = 1
    rw [List.filter_append, List.length_append, hflopCount]
    rfl

/-- C4 witness: both schedule-if-absent paths, called twice on the fresh
module state, leave exactly one pending timer of their kind. -/
theorem C4_single_flight_witness :
    countDir (changeSwimDirections 700 (changeSwimDirections 600 (initSys ⟨0, 0, 0⟩))).pending = 1 ∧
    (changeSwimDirections 700 (changeSwimDirections 600 (initSys ⟨0, 0, 0⟩))).swimDirectionChangeTimeoutId ≠ none ∧
    countFlop (flopRandomly 900 2 4 (flopRandomly 800 1 2 (initSys ⟨0, 0, 0⟩))).pending = 1 ∧
    (flopRandomly 900 2 4 (flopRandomly 800 1 2 (initSys ⟨0, 0, 0⟩))).flopTimeoutId ≠ none :=
  C4_single_flight 600 700 800 900 1 2 2 4 (initSys ⟨0, 0, 0⟩)
    (by decide) (by decide) (by decide) (by decide)

/-- C5: for any unit-interval RNG sample, the sampled angular offset stays
within `±90°` of the base away-vector and within `±22.5°` of the base
toward-vector. -/
theorem C5_direction_offset_bounds (r : ℝ) (h0 : 0 ≤ r) (h1 : r < 1) :
    |awayAngleOffset r| ≤ degToRad 90 ∧ |towardAngleOffset r| ≤ degToRad 22.5 := by
  have hpi := Real.pi_pos
  have hr1 : (0 : ℝ) ≤ 1 - r := by linarith
  unfold awayAngleOffset towardAngleOffset getRandomFloat degToRad
  constructor <;> rw [abs_le] <;> constructor <;>
    nlinarith [mul_nonneg h0 hpi.le, mul_nonneg hr1 hpi.le]

/-- C5 witness: the bounds hold at the concrete sample `r = 1/2`. -/
theorem C5_direction_offset_bounds_witness :
    |awayAngleOffset (1 / 2)| ≤ degToRad 90 ∧ |towardAngleOffset (1 / 2)| ≤ degToRad 22.5 :=
  C5_direction_offset_bounds (1 / 2) (by norm_num) (by norm_num)

/-- C6: requesting a non-positive flop playback speed yields `0.1`, a
positive request is taken as-is, and the stored speed is always positive. -/
theorem C6_flop_speed_clamp (sp : ℚ) (s : Sys) :
    (sp ≤ 0 → (setFlopPlaybackSpeed sp s).flopPlaybackSpeed = 0.1) ∧
    (0 < sp → (setFlopPlaybackSpeed sp s).flopPlaybackSpeed = sp) ∧
    0 < (setFlopPlaybackSpeed sp s).flopPlaybackSpeed := by
  unfold setFlopPlaybackSpeed
  refine ⟨?_, ?_, ?_⟩
  · intro h
    show (if sp ≤ 0 then (0.1 : ℚ) else sp) = 0.1
    rw [if_pos h]
  · intro h
    show (if sp ≤ 0 then (0.1 : ℚ) else sp) = sp
    rw [if_neg (not_le.2 h)]
  · show 0 < (if sp ≤ 0 then (0.1 : ℚ) else sp)
    by_cases h : sp ≤ 0
    · rw [if_pos h]; norm_num
    · rw [if_neg h]; exact lt_of_not_le h

/-- C6 witness: a request of `-1` is clamped to `0.1` and stays positive;
a request of `5` is stored as `5`. -/
theorem C6_flop_speed_clamp_witness :
    (setFlopPlaybackSpeed (-1) (initSys ⟨0, 0, 0⟩)).flopPlaybackSpeed = 0.1 ∧
    (setFlopPlaybackSpeed 5 (initSys ⟨0, 0, 0⟩)).flopPlaybackSpeed = 5 ∧
    0 < (setFlopPlaybackSpeed (-1) (initSys ⟨0, 0, 0⟩)).flopPlaybackSpeed :=
  ⟨(C6_flop_speed_clamp (-1) (initSys ⟨0, 0, 0⟩)).1 (by norm_num),
   (C6_flop_speed_clamp 5 (initSys ⟨0, 0, 0⟩)).2.1 (by norm_num),
   (C6_flop_speed_clamp (-1) (initSys ⟨0, 0, 0⟩)).2.2⟩

/-- C7: within one tick of `run()`, the per-actor updates occur exactly
once each, in the fixed order water, boat, fisherman, fishing line, bobber,
fish, UI. -/
theorem C7_update_order :
    runTick.filter (fun x => actorOrder.contains x) = actorOrder ∧
    List.Sublist actorOrder runTick := by
  decide

/-- C8: the `RESET` receiver places the fish at `(0, 2, 50)`, applies one
fresh uniform scale sample from `[2, 5)` to all three axes, orients the fish
toward the fisherman, and enters `IDLE` with a null per-frame callback, so a
subsequent `update()` returns the state unchanged and publishes nothing. -/
theorem C8_reset_handler (env : Env) (f : FrameInput) (s : Sys) :
    (dispatch env Event.RESET s).pos = ⟨0, 2, 50⟩ ∧
    (dispatch env Event.RESET s).scale =
      ⟨getRandomFloat 2 5 env.rScale, getRandomFloat 2 5 env.rScale,
       getRandomFloat 2 5 env.rScale⟩ ∧
    (dispatch env Event.RESET s).rot = Rot.lookAtV env.fishermanPos ∧
    (dispatch env Event.RESET s).st = FishStates.IDLE ∧
    (dispatch env Event.RESET s).onTick = none ∧
    (update env f (dispatch env Event.RESET s)).1 = dispatch env Event.RESET s ∧
    (update env f (dispatch env Event.RESET s)).2 = [] :=
  ⟨rfl, rfl, rfl, rfl, rfl, rfl, rfl⟩

/-- C9: `getPosition()` clones the position object: the returned reference
is distinct from the fish's stored one, and writing any value through the
returned reference leaves the fish's stored components unchanged. -/
theorem C9_getPosition_copy (m : Mem) (fishPosRef : ℕ) (h : fishPosRef < m.next) (v : Vec3) :
    (getPositionRef fishPosRef m).1 ≠ fishPosRef ∧
    ((getPositionRef fishPosRef m).2.write (getPositionRef fishPosRef m).1 v).read fishPosRef
      = m.read fishPosRef := by
  constructor
  · exact (Nat.ne_of_lt h).symm
  · show Function.update (Function.update m.data m.next (m.data fishPosRef)) m.next v fishPosRef
      = m.data fishPosRef
    rw [Function.update_noteq (Nat.ne_of_lt h), Function.update_noteq (Nat.ne_of_lt h)]

/-- C9 witness: on a one-object store, mutating the cloned position leaves
the stored position unchanged. -/
theorem C9_getPosition_copy_witness :
    (getPositionRef 0 ⟨fun _ => ⟨0, 0, 0⟩, 1⟩).1 ≠ 0 ∧
    ((getPositionRef 0 ⟨fun _ => ⟨0, 0, 0⟩, 1⟩).2.write
        (getPositionRef 0 ⟨fun _ => ⟨0, 0, 0⟩, 1⟩).1 ⟨7, 8, 9⟩).read 0
      = Mem.read ⟨fun _ => ⟨0, 0, 0⟩, 1⟩ 0 :=
  C9_getPosition_copy ⟨fun _ => ⟨0, 0, 0⟩, 1⟩ 0 (by decide) ⟨7, 8, 9⟩

/-- C10: `moveBelowBobber` — and hence the `ON_FISH_FIGHT` receiver that
calls it — copies only the bobber's `x` and `z` into the fish's position and
leaves the fish's `y` component unchanged. -/
theorem C10_moveBelowBobber (env : Env) (s : Sys) :
    (moveBelowBobber env s).pos = ⟨env.bobberPos.x, s.pos.y, env.bobberPos.z⟩ ∧
    (dispatch env Event.ON_FISH_FIGHT s).pos.y = s.pos.y ∧
    (dispatch env Event.ON_FISH_FIGHT s).pos.x = env.bobberPos.x ∧
    (dispatch env Event.ON_FISH_FIGHT s).pos.z = env.bobberPos.z :=
  ⟨rfl, rfl, rfl, rfl⟩

end FearsomeFishing
